import Mathlib

/-!
Verification of src/solarman.py (hechay/solarman).

The Python program is shallowly embedded below.  JSON scalar values become
the inductive `Scalar`; a device/station snapshot (a Python dict) becomes an
association list from field names to `Field` values, where a `Field` is either
a scalar or the nested `dataList` (a list of attribute records, themselves
dicts of scalars).  Python's in-place mutation is modelled by explicit state
passing: `restruct_and_separate_current_data` returns both the Python return
value and the post-state of its `data` argument, and a caught exception inside
its `try` block is modelled with `Except`, carrying the partially mutated
record list.  The `run` function is modelled as a pure function from the
configuration, the upstream responses of one cycle and the random client id to
the trace of bus events it emits, together with a flag recording whether an
unhandled exception escaped `run`.
-/

set_option autoImplicit false
set_option linter.unusedVariables false

namespace Solarman

/-- Scalar JSON values as they occur in the API responses. -/
inductive Scalar where
  | none
  | bool (b : Bool)
  | int (n : Int)
  | rat (q : Rat)
  | str (s : String)
deriving DecidableEq, Repr

/-- Python truthiness of a scalar (`if value:`): `None`, `False`, `0`, `0.0`
and `""` are falsy. -/
def Scalar.truthy : Scalar → Bool
  | Scalar.none => false
  | Scalar.bool b => b
  | Scalar.int n => n != 0
  | Scalar.rat q => q != 0
  | Scalar.str s => s != ""

/-- An attribute record of a `dataList`: a Python dict of scalars
(fields `key`, `name`, `value` when well formed). -/
abbrev AttrRec := List (String × Scalar)

/-- A value stored in a snapshot dict: either a scalar field or the nested
`dataList` list of attribute records. -/
inductive Field where
  | scalar (v : Scalar)
  | dataList (records : List AttrRec)
deriving DecidableEq, Repr

/-- Python truthiness of a snapshot field: a list is truthy iff non-empty. -/
def Field.truthy : Field → Bool
  | Field.scalar v => v.truthy
  | Field.dataList rs => !rs.isEmpty

/-- Python equality `v == 1` on a snapshot field (line 217): `1`, `1.0` and
`True` compare equal to `1`; strings, `None` and lists never do. -/
def pyEqOne : Field → Bool
  | Field.scalar (Scalar.int n) => n == 1
  | Field.scalar (Scalar.rat q) => q == 1
  | Field.scalar (Scalar.bool b) => b
  | _ => false

/-- A station or device snapshot: a Python dict from field names to values,
modelled as an association list in insertion order. -/
abbrev Snapshot := List (String × Field)

/-- Dict lookup `d[k]` (first binding wins; Python dicts have unique keys). -/
def alookup {α : Type} : List (String × α) → String → Option α
  | [], _ => Option.none
  | p :: rest, k => if p.1 = k then some p.2 else alookup rest k

/-- Dict deletion `del d[k]`: removes the binding of `k`. -/
def aerase {α : Type} : List (String × α) → String → List (String × α)
  | [], _ => []
  | p :: rest, k => if p.1 = k then aerase rest k else p :: aerase rest k

/-- Overwriting the value of key `k` in place (keeping its position). -/
def setVal {α : Type} : List (String × α) → String → α → List (String × α)
  | [], _, _ => []
  | p :: rest, k, v => (if p.1 = k then (k, v) else p) :: setVal rest k v

/-- Dict assignment `d[k] = v`: overwrite in place if `k` is present,
otherwise append a new binding (Python insertion order). -/
def dinsert {α : Type} (d : List (String × α)) (k : String) (v : α) : List (String × α) :=
  if (alookup d k).isSome then setVal d k v else d ++ [(k, v)]

/-- Embedding of `name.replace(" ", "_")`: as the pattern is the single
character `' '`, the replacement is exactly a character-wise map. -/
def underscoreSpaces (s : String) : String :=
  String.mk (s.data.map (fun c => if c = ' ' then '_' else c))

/-- One iteration of the loop body of `restruct_and_separate_current_data`
(solarman.py lines 128-132) on a single record `i`:
`del i["key"]; name = i["name"]; name = name.replace(" ", "_");
del i["name"]; new_data_list[name] = i["value"]`.
On success returns the rewritten name, the value, and the mutated record;
a `KeyError`/`AttributeError` is `Except.error`, carrying the record as
mutated so far (Python deletes are visible even when a later step throws). -/
def procRec (i : AttrRec) : Except AttrRec (String × Scalar × AttrRec) :=
  match alookup i "key" with
  | Option.none => Except.error i
  | some _ =>
    let i1 := aerase i "key"
    match alookup i1 "name" with
    | some (Scalar.str nm) =>
      let nm2 := underscoreSpaces nm
      let i2 := aerase i1 "name"
      match alookup i2 "value" with
      | Option.none => Except.error i2
      | some v => Except.ok (nm2, v, i2)
    | some _ => Except.error i1
    | Option.none => Except.error i1

/-- The `for i in data_list:` loop of `restruct_and_separate_current_data`:
`remaining` are the unprocessed records, `acc` is `new_data_list` so far and
`done` the already-mutated records in reverse.  On an exception the error
carries the whole record list in its partially mutated state. -/
def procAll : List AttrRec → List (String × Scalar) → List AttrRec →
    Except (List AttrRec) (List (String × Scalar) × List AttrRec)
  | [], acc, done => Except.ok (acc, done.reverse)
  | i :: rest, acc, done =>
    match procRec i with
    | Except.error i2 => Except.error (done.reverse ++ i2 :: rest)
    | Except.ok (nm, v, i2) => procAll rest (dinsert acc nm v) (i2 :: done)

/-- Embedding of `restruct_and_separate_current_data(data, device)`
(solarman.py lines 112-137).  The first component is the Python return value
(`new_data_list`, or `None` when an exception was caught); the second is the
post-state of the (mutated) `data` argument.  A `None` argument enters the
`try` block, raises `TypeError` at `data["dataList"]` and returns `None`; a
missing `dataList` key raises `KeyError` and returns `None` leaving `data`
unchanged; a truthy scalar `dataList` raises `TypeError` in the `for` loop; a
falsy `dataList` skips the `if` body and returns the empty dict without
deleting `dataList`; a non-empty record list is processed by `procAll` and on
success `dataList` is deleted from `data`. -/
def restruct_and_separate_current_data (data : Option Snapshot) (device : String) :
    Option (List (String × Scalar)) × Option Snapshot :=
  match data with
  | Option.none => (Option.none, Option.none)
  | some d =>
    match alookup d "dataList" with
    | Option.none => (Option.none, some d)
    | some f =>
      if f.truthy then
        match f with
        | Field.scalar _ => (Option.none, some d)
        | Field.dataList rs =>
          match procAll rs [] [] with
          | Except.ok (nd, _) => (some nd, some (aerase d "dataList"))
          | Except.error rs2 =>
            (Option.none, some (setVal d "dataList" (Field.dataList rs2)))
      else
        (some [], some d)

/-- A record is well formed when it has a `key`, a string `name` and a
`value` field, so `procRec` succeeds on it. -/
def recOK (r : AttrRec) : Bool :=
  (alookup r "key").isSome &&
    (match alookup r "name" with
     | some (Scalar.str _) => true
     | _ => false) &&
    (alookup r "value").isSome

/-- The output key contributed by a well-formed record: its `name` with every
space replaced by an underscore. -/
def recName (r : AttrRec) : String :=
  match alookup r "name" with
  | some (Scalar.str s) => underscoreSpaces s
  | _ => ""

/-- The output value contributed by a record: its `value` field. -/
def recValue (r : AttrRec) : Scalar :=
  (alookup r "value").getD Scalar.none

/-- The record as mutated by a successful `procRec`: `key` and `name`
deleted. -/
def mutRec (r : AttrRec) : AttrRec :=
  aerase (aerase r "key") "name"

/-- The mapping the spec describes: insert, record by record, the rewritten
name as key and the record's value as value. -/
def flattenSpec (rs : List AttrRec) : List (String × Scalar) :=
  rs.foldl (fun acc r => dinsert acc (recName r) (recValue r)) []

/-- The run configuration (`config.json`, pre-validated per the spec). -/
structure Config where
  url : String
  appid : String
  secret : String
  username : String
  password : String
  orgId : Option String
  stationId : String
  inverterId : String
  loggerId : String
  broker : String
  port : Nat
  mqttUsername : String
  mqttPassword : String
  topic : String
  debug : Bool
deriving DecidableEq, Repr

/-- The upstream responses of one cycle: the token returned by `get_token`
(`none` models a failed exchange) and the three fetch results of
`get_station_realtime` / `get_device_current_data` (`none` models a failed
fetch; the fetch functions return `None` on any error). -/
structure Upstream where
  token : Option String
  station : Option Snapshot
  inverter : Option Snapshot
  logger : Option Snapshot
deriving DecidableEq, Repr

/-- A payload handed to `client.publish`: either a raw snapshot field or the
`json.dumps` of a flattened attribute mapping. -/
inductive Payload where
  | field (v : Field)
  | json (m : List (String × Scalar))
deriving DecidableEq, Repr

/-- Observable bus events of one cycle: `connect_mqtt` with the random client
id, `client.loop_start()`, a `publish(topic, payload)`, and
`client.loop_stop()`. -/
inductive Event where
  | connect (clientId : String)
  | loopStart
  | publish (topic : String) (payload : Payload)
  | loopStop
deriving DecidableEq, Repr

/-- The metadata keys excluded from per-field publication
(solarman.py line 203). -/
def discard : List String := ["code", "msg", "requestId", "success"]

/-- Per-field publication loop (solarman.py lines 221-223, 226-228, 235-237):
for each snapshot item publish `<topic>/<sub>/<field>` when the value is
truthy and the field is not a metadata key. -/
def perField (t sub : String) (d : Snapshot) : List Event :=
  d.filterMap (fun p =>
    if p.2.truthy && !(discard.contains p.1) then
      some (Event.publish (t ++ "/" ++ sub ++ "/" ++ p.1) (Payload.field p.2))
    else Option.none)

/-- Attribute-blob publication (solarman.py lines 231-232, 240-241):
`if inverter_data_list:` publishes the serialized mapping under
`<topic>/<sub>/attributes`; `None` and the empty dict are falsy. -/
def blobEvents (t sub : String) (dl : Option (List (String × Scalar))) : List Event :=
  match dl with
  | Option.none => []
  | some [] => []
  | some m => [Event.publish (t ++ "/" ++ sub ++ "/attributes") (Payload.json m)]

/-- Everything `run` does after `client.loop_start()` (solarman.py lines
211-250), as a pair of the emitted events and a crash flag.  The transforms
(lines 184-185) happen before the connection is opened but only their results
matter here, so they are recomputed from the upstream snapshots: `p1`/`p2`
are the return value and the mutated snapshot of
`restruct_and_separate_current_data` for the inverter and the logger.  The
guard (lines 211-215) returns early when the inverter data or its
`deviceState` is missing, or station or logger data is `None`.  When
`deviceState == 1` every branch of the full publication runs and the loop is
stopped; otherwise only the two `deviceState` topics are published — and
`logger_data["deviceState"]` (line 247) raises an uncaught `KeyError` when
the logger snapshot has no such key, modelled by the `true` crash flag. -/
def coreOutcome (cfg : Config) (up : Upstream) : List Event × Bool :=
  let t := cfg.topic
  let p1 := restruct_and_separate_current_data up.inverter "Inverter"
  let inverter_data_list := p1.1
  let p2 := restruct_and_separate_current_data up.logger "Logger"
  let logger_data_list := p2.1
  match p1.2, up.station, p2.2 with
  | some inverter_data, some station_data, some logger_data =>
    match alookup inverter_data "deviceState" with
    | Option.none => ([], false)
    | some st =>
      if pyEqOne st then
        (perField t "station" station_data
          ++ perField t "inverter" inverter_data
          ++ blobEvents t "inverter" inverter_data_list
          ++ perField t "logger" logger_data
          ++ blobEvents t "logger" logger_data_list
          ++ [Event.loopStop], false)
      else
        match alookup logger_data "deviceState" with
        | Option.none =>
          ([Event.publish (t ++ "/inverter/deviceState") (Payload.field st)], true)
        | some lv =>
          ([Event.publish (t ++ "/inverter/deviceState") (Payload.field st),
            Event.publish (t ++ "/logger/deviceState") (Payload.field lv),
            Event.loopStop], false)
  | _, _, _ => ([], false)

/-- The result of one invocation of `run`: the trace of bus events and
whether an unhandled exception escaped. -/
structure RunOutcome where
  events : List Event
  crashed : Bool
deriving DecidableEq, Repr

/-- Embedding of `run(config)` (solarman.py lines 165-250).  The upstream
responses of the cycle are `up`; `client_id` is the value of
`generate_client_id()` (line 206), the only per-run nondeterminism.  When the
token exchange failed `run` returns before connecting; otherwise it connects,
starts the client loop and proceeds with `coreOutcome`. -/
def run (cfg : Config) (up : Upstream) (client_id : String) : RunOutcome :=
  match up.token with
  | Option.none => { events := [], crashed := false }
  | some _ =>
    let core := coreOutcome cfg up
    { events := Event.connect client_id :: Event.loopStart :: core.1,
      crashed := core.2 }

/-- The topic/payload projection of an event (publications only). -/
def pubOf : Event → Option (String × Payload)
  | Event.publish t p => some (t, p)
  | _ => Option.none

/-- The published topic/value pairs of a list of events. -/
def asPubs (l : List Event) : List (String × Payload) :=
  l.filterMap pubOf

/-- The published topic/value pairs of a run. -/
def RunOutcome.publishes (o : RunOutcome) : List (String × Payload) :=
  asPubs o.events

/-- Whether the data guard of lines 211-215 passes: the (transformed)
inverter snapshot exists and has a `deviceState`, and station and logger
data are present. -/
def guardPasses (up : Upstream) : Bool :=
  match (restruct_and_separate_current_data up.inverter "Inverter").2, up.station,
      (restruct_and_separate_current_data up.logger "Logger").2 with
  | some inverter_data, some _, some _ => (alookup inverter_data "deviceState").isSome
  | _, _, _ => false

/-! Basic association-list lemmas. -/

theorem alookup_aerase {α : Type} (d : List (String × α)) (k k' : String) (h : k' ≠ k) :
    alookup (aerase d k) k' = alookup d k' := by
  induction d with
  | nil => rfl
  | cons p rest ih =>
    by_cases hp : p.1 = k
    · have hk : k ≠ k' := fun hh => h hh.symm
      have hp' : p.1 ≠ k' := by rw [hp]; exact hk
      simp [aerase, alookup, hp, hp', hk, ih]
    · by_cases hq : p.1 = k'
      · simp [aerase, alookup, hp, hq, h]
      · simp [aerase, alookup, hp, hq, h, ih]

theorem alookup_setVal {α : Type} (d : List (String × α)) (k k' : String) (v : α)
    (h : k' ≠ k) :
    alookup (setVal d k v) k' = alookup d k' := by
  induction d with
  | nil => rfl
  | cons p rest ih =>
    by_cases hp : p.1 = k
    · have hk : k ≠ k' := fun hh => h hh.symm
      have hp' : p.1 ≠ k' := by rw [hp]; exact hk
      simp [setVal, alookup, hp, hp', hk, ih]
    · by_cases hq : p.1 = k'
      · simp [setVal, alookup, hp, hq, h]
      · simp [setVal, alookup, hp, hq, h, ih]

/-! Lemmas about the transformer. -/

theorem procRec_ok (i : AttrRec) (h : recOK i = true) :
    procRec i = Except.ok (recName i, recValue i, mutRec i) := by
  have h' := h
  simp only [recOK, Bool.and_eq_true] at h'
  obtain ⟨⟨h1, h2⟩, h3⟩ := h'
  obtain ⟨kv, hk⟩ := Option.isSome_iff_exists.mp h1
  obtain ⟨vv, hv⟩ := Option.isSome_iff_exists.mp h3
  obtain ⟨s, hn⟩ : ∃ s, alookup i "name" = some (Scalar.str s) := by
    rcases hx : alookup i "name" with _ | w
    · rw [hx] at h2; simp at h2
    · rcases w with _ | b | n | q | s
      · rw [hx] at h2; simp at h2
      · rw [hx] at h2; simp at h2
      · rw [hx] at h2; simp at h2
      · rw [hx] at h2; simp at h2
      · exact ⟨s, rfl⟩
  have e1 : alookup (aerase i "key") "name" = some (Scalar.str s) := by
    rw [alookup_aerase _ _ _ (by decide), hn]
  have e2 : alookup (aerase (aerase i "key") "name") "value" = some vv := by
    rw [alookup_aerase _ _ _ (by decide), alookup_aerase _ _ _ (by decide), hv]
  simp [procRec, hk, e1, e2, recName, recValue, mutRec, hn, hv]

theorem procAll_ok (rs : List AttrRec) :
    ∀ acc done, (∀ r ∈ rs, recOK r = true) →
      procAll rs acc done
        = Except.ok (rs.foldl (fun a r => dinsert a (recName r) (recValue r)) acc,
            done.reverse ++ rs.map mutRec) := by
  induction rs with
  | nil => intro acc done _; simp [procAll]
  | cons i rest ih =>
    intro acc done h
    have hi : recOK i = true := h i (by simp)
    simp only [procAll, procRec_ok i hi]
    rw [ih _ _ (fun r hr => h r (by simp [hr]))]
    simp [List.foldl_cons, List.map_cons, List.reverse_cons, List.append_assoc]

theorem restruct_nonempty (d : Snapshot) (rs : List AttrRec) (device : String)
    (hd : alookup d "dataList" = some (Field.dataList rs)) (hne : rs ≠ [])
    (hwf : ∀ r ∈ rs, recOK r = true) :
    restruct_and_separate_current_data (some d) device
      = (some (flattenSpec rs), some (aerase d "dataList")) := by
  have ht : (Field.dataList rs).truthy = true := by
    simp [Field.truthy, List.isEmpty_iff, hne]
  rw [restruct_and_separate_current_data, hd]
  simp only [ht, if_true]
  rw [procAll_ok rs [] [] hwf]
  simp [flattenSpec]

theorem restruct_missing (d : Snapshot) (device : String)
    (hd : alookup d "dataList" = Option.none) :
    restruct_and_separate_current_data (some d) device = (Option.none, some d) := by
  rw [restruct_and_separate_current_data, hd]

theorem restruct_empty (d : Snapshot) (device : String)
    (hd : alookup d "dataList" = some (Field.dataList [])) :
    restruct_and_separate_current_data (some d) device = (some [], some d) := by
  rw [restruct_and_separate_current_data, hd]
  simp [Field.truthy]

theorem restruct_snd_some (d : Snapshot) (device : String) :
    ∃ d2, (restruct_and_separate_current_data (some d) device).2 = some d2
      ∧ ∀ k, k ≠ "dataList" → alookup d2 k = alookup d k := by
  rw [restruct_and_separate_current_data]
  cases hd : alookup d "dataList" with
  | none => exact ⟨d, by simp, fun k _ => rfl⟩
  | some f =>
    by_cases ht : f.truthy = true
    · cases f with
      | scalar v => exact ⟨d, by simp [ht], fun k _ => rfl⟩
      | dataList rs =>
        cases hp : procAll rs [] [] with
        | ok pr =>
          obtain ⟨nd, rs'⟩ := pr
          exact ⟨aerase d "dataList", by simp [ht, hp],
            fun k hk => alookup_aerase _ _ _ hk⟩
        | error rs2 =>
          exact ⟨setVal d "dataList" (Field.dataList rs2), by simp [ht, hp],
            fun k hk => alookup_setVal _ _ _ _ hk⟩
    · exact ⟨d, by simp [ht], fun k _ => rfl⟩

/-- The rational 12.5 (= 25/2) in a kernel-reducible normal form. -/
def twelvePointFive : Rat := ⟨25, 2, by decide, by decide⟩

theorem twelvePointFive_eq : twelvePointFive = 12.5 := by
  rw [twelvePointFive, Rat.mk'_eq_divInt]
  norm_num [Rat.divInt_eq_div]

/-! Lemmas about the publication step and the run skeleton. -/

theorem restruct_arg_none (device : String) :
    restruct_and_separate_current_data Option.none device
      = (Option.none, Option.none) := rfl

theorem mem_perField (t sub : String) (d : Snapshot) (e : Event) :
    e ∈ perField t sub d ↔
      ∃ k v, (k, v) ∈ d ∧ Field.truthy v = true ∧ discard.contains k = false
        ∧ e = Event.publish (t ++ "/" ++ sub ++ "/" ++ k) (Payload.field v) := by
  simp only [perField, List.mem_filterMap]
  constructor
  · rintro ⟨⟨k, v⟩, hm, hf⟩
    by_cases hc : (Field.truthy v && !(discard.contains k)) = true
    · rw [if_pos hc] at hf
      rcases Bool.and_eq_true .. |>.mp hc with ⟨h1, h2⟩
      exact ⟨k, v, hm, h1, Bool.not_eq_true' .. |>.mp h2, (Option.some.inj hf).symm⟩
    · rw [if_neg hc] at hf
      exact absurd hf (by simp)
  · rintro ⟨k, v, hm, h1, h2, rfl⟩
    have h2' : k ∉ discard := by simpa using h2
    exact ⟨(k, v), hm, by simp [h1, h2, h2']⟩

theorem perField_pub_only (t sub : String) (d : Snapshot) (e : Event)
    (h : e ∈ perField t sub d) : ∃ tp p, e = Event.publish tp p := by
  rcases (mem_perField t sub d e).mp h with ⟨k, v, _, _, _, rfl⟩
  exact ⟨_, _, rfl⟩

theorem blobEvents_pub_only (t sub : String) (dl : Option (List (String × Scalar)))
    (e : Event) (h : e ∈ blobEvents t sub dl) : ∃ tp p, e = Event.publish tp p := by
  rcases dl with _ | (_ | ⟨a, l⟩)
  · simp [blobEvents] at h
  · simp [blobEvents] at h
  · simp [blobEvents] at h
    exact ⟨_, _, h⟩

theorem asPubs_append (l1 l2 : List Event) :
    asPubs (l1 ++ l2) = asPubs l1 ++ asPubs l2 :=
  List.filterMap_append l1 l2 pubOf

theorem core_guard_fail (cfg : Config) (up : Upstream)
    (h : guardPasses up = false) : coreOutcome cfg up = ([], false) := by
  rw [coreOutcome]
  rcases h2 : (restruct_and_separate_current_data up.inverter "Inverter").2 with _ | idd
  · rcases up.station with _ | sd <;>
      rcases (restruct_and_separate_current_data up.logger "Logger").2 with _ | ld <;> rfl
  · rcases hst : up.station with _ | sd
    · rcases (restruct_and_separate_current_data up.logger "Logger").2 with _ | ld <;> rfl
    · rcases h3 : (restruct_and_separate_current_data up.logger "Logger").2 with _ | ld
      · rfl
      · rcases hv : alookup idd "deviceState" with _ | v
        · simp [hv]
        · exfalso
          rw [guardPasses, h2, hst, h3] at h
          simp [hv] at h

theorem guard_fail_station (up : Upstream) (h : up.station = Option.none) :
    guardPasses up = false := by
  rw [guardPasses, h]
  rcases (restruct_and_separate_current_data up.inverter "Inverter").2 with _ | idd <;>
    rcases (restruct_and_separate_current_data up.logger "Logger").2 with _ | ld <;> rfl

theorem guard_fail_inverter (up : Upstream) (h : up.inverter = Option.none) :
    guardPasses up = false := by
  rw [guardPasses, h, restruct_arg_none]

theorem guard_fail_logger (up : Upstream) (h : up.logger = Option.none) :
    guardPasses up = false := by
  rw [guardPasses, h, restruct_arg_none]
  rcases (restruct_and_separate_current_data up.inverter "Inverter").2 with _ | idd <;>
    rcases up.station with _ | sd <;> rfl

theorem guard_fail_noState (up : Upstream) (idd : Snapshot)
    (hi : up.inverter = some idd) (hd : alookup idd "deviceState" = Option.none) :
    guardPasses up = false := by
  obtain ⟨idd2, h2, hpres⟩ := restruct_snd_some idd "Inverter"
  rw [guardPasses, hi, h2]
  have : alookup idd2 "deviceState" = Option.none := by
    rw [hpres _ (by decide), hd]
  rcases up.station with _ | sd <;>
    rcases (restruct_and_separate_current_data up.logger "Logger").2 with _ | ld <;>
      simp [this]

theorem guard_fail_invPost (up : Upstream)
    (h : (restruct_and_separate_current_data up.inverter "Inverter").2 = Option.none) :
    guardPasses up = false := by
  rw [guardPasses, h]

theorem guard_fail_logPost (up : Upstream)
    (h : (restruct_and_separate_current_data up.logger "Logger").2 = Option.none) :
    guardPasses up = false := by
  rw [guardPasses, h]
  rcases (restruct_and_separate_current_data up.inverter "Inverter").2 with _ | idd <;>
    rcases up.station with _ | sd <;> rfl

theorem guard_fail_statePost (up : Upstream) (idd2 : Snapshot)
    (h2 : (restruct_and_separate_current_data up.inverter "Inverter").2 = some idd2)
    (hv : alookup idd2 "deviceState" = Option.none) :
    guardPasses up = false := by
  rw [guardPasses, h2]
  rcases up.station with _ | sd <;>
    rcases (restruct_and_separate_current_data up.logger "Logger").2 with _ | ld <;>
      simp [hv]

theorem guard_true (up : Upstream) (sd idd2 ld2 : Snapshot) (v : Field)
    (hst : up.station = some sd)
    (h2 : (restruct_and_separate_current_data up.inverter "Inverter").2 = some idd2)
    (h3 : (restruct_and_separate_current_data up.logger "Logger").2 = some ld2)
    (hv : alookup idd2 "deviceState" = some v) :
    guardPasses up = true := by
  rw [guardPasses, h2, hst, h3]
  simp [hv]

theorem run_token_none (cfg : Config) (up : Upstream) (cid : String)
    (h : up.token = Option.none) : run cfg up cid = ⟨[], false⟩ := by
  rw [run, h]

theorem run_token_some (cfg : Config) (up : Upstream) (cid tok : String)
    (h : up.token = some tok) :
    run cfg up cid
      = ⟨Event.connect cid :: Event.loopStart :: (coreOutcome cfg up).1,
         (coreOutcome cfg up).2⟩ := by
  rw [run, h]

/-- The event list of the online branch (lines 217-243). -/
def onlineEvents (cfg : Config) (up : Upstream) (sd idd2 ld2 : Snapshot) : List Event :=
  perField cfg.topic "station" sd
    ++ perField cfg.topic "inverter" idd2
    ++ blobEvents cfg.topic "inverter"
        (restruct_and_separate_current_data up.inverter "Inverter").1
    ++ perField cfg.topic "logger" ld2
    ++ blobEvents cfg.topic "logger"
        (restruct_and_separate_current_data up.logger "Logger").1

theorem core_online_post (cfg : Config) (up : Upstream) (sd idd2 ld2 : Snapshot) (v : Field)
    (hst : up.station = some sd)
    (h2 : (restruct_and_separate_current_data up.inverter "Inverter").2 = some idd2)
    (h3 : (restruct_and_separate_current_data up.logger "Logger").2 = some ld2)
    (hv : alookup idd2 "deviceState" = some v) (hon : pyEqOne v = true) :
    coreOutcome cfg up
      = (onlineEvents cfg up sd idd2 ld2 ++ [Event.loopStop], false) := by
  rw [coreOutcome, h2, hst, h3, onlineEvents]
  simp [hv, hon]

theorem core_offline_ok_post (cfg : Config) (up : Upstream) (sd idd2 ld2 : Snapshot)
    (v lv : Field)
    (hst : up.station = some sd)
    (h2 : (restruct_and_separate_current_data up.inverter "Inverter").2 = some idd2)
    (h3 : (restruct_and_separate_current_data up.logger "Logger").2 = some ld2)
    (hv : alookup idd2 "deviceState" = some v) (hoff : pyEqOne v = false)
    (hlv : alookup ld2 "deviceState" = some lv) :
    coreOutcome cfg up =
      ([Event.publish (cfg.topic ++ "/inverter/deviceState") (Payload.field v),
        Event.publish (cfg.topic ++ "/logger/deviceState") (Payload.field lv),
        Event.loopStop], false) := by
  rw [coreOutcome, h2, hst, h3]
  simp [hv, hoff, hlv]

theorem core_offline_crash_post (cfg : Config) (up : Upstream) (sd idd2 ld2 : Snapshot)
    (v : Field)
    (hst : up.station = some sd)
    (h2 : (restruct_and_separate_current_data up.inverter "Inverter").2 = some idd2)
    (h3 : (restruct_and_separate_current_data up.logger "Logger").2 = some ld2)
    (hv : alookup idd2 "deviceState" = some v) (hoff : pyEqOne v = false)
    (hlv : alookup ld2 "deviceState" = Option.none) :
    coreOutcome cfg up =
      ([Event.publish (cfg.topic ++ "/inverter/deviceState") (Payload.field v)], true) := by
  rw [coreOutcome, h2, hst, h3]
  simp [hv, hoff, hlv]

/-- Exhaustive enumeration of what one cycle past the token check can do:
guard abort, online full publication, offline two-message publication, or the
offline crash on a logger snapshot without `deviceState`. -/
theorem run_cases (cfg : Config) (up : Upstream) :
    (guardPasses up = false ∧ coreOutcome cfg up = ([], false))
    ∨ (∃ sd idd2 ld2 v, guardPasses up = true
        ∧ up.station = some sd
        ∧ (restruct_and_separate_current_data up.inverter "Inverter").2 = some idd2
        ∧ (restruct_and_separate_current_data up.logger "Logger").2 = some ld2
        ∧ alookup idd2 "deviceState" = some v
        ∧ ((pyEqOne v = true
              ∧ coreOutcome cfg up
                  = (onlineEvents cfg up sd idd2 ld2 ++ [Event.loopStop], false))
           ∨ (∃ lv, pyEqOne v = false ∧ alookup ld2 "deviceState" = some lv
                ∧ coreOutcome cfg up =
                    ([Event.publish (cfg.topic ++ "/inverter/deviceState") (Payload.field v),
                      Event.publish (cfg.topic ++ "/logger/deviceState") (Payload.field lv),
                      Event.loopStop], false))
           ∨ (pyEqOne v = false ∧ alookup ld2 "deviceState" = Option.none
                ∧ coreOutcome cfg up =
                    ([Event.publish (cfg.topic ++ "/inverter/deviceState")
                        (Payload.field v)], true)))) := by
  rcases h2 : (restruct_and_separate_current_data up.inverter "Inverter").2 with _ | idd2
  · have hg := guard_fail_invPost up h2
    exact Or.inl ⟨hg, core_guard_fail cfg up hg⟩
  · rcases hst : up.station with _ | sd
    · have hg := guard_fail_station up hst
      exact Or.inl ⟨hg, core_guard_fail cfg up hg⟩
    · rcases h3 : (restruct_and_separate_current_data up.logger "Logger").2 with _ | ld2
      · have hg := guard_fail_logPost up h3
        exact Or.inl ⟨hg, core_guard_fail cfg up hg⟩
      · rcases hv : alookup idd2 "deviceState" with _ | v
        · have hg := guard_fail_statePost up idd2 h2 hv
          exact Or.inl ⟨hg, core_guard_fail cfg up hg⟩
        · refine Or.inr ⟨sd, idd2, ld2, v, guard_true up sd idd2 ld2 v hst h2 h3 hv,
            rfl, rfl, rfl, hv, ?_⟩
          rcases hpy : pyEqOne v with _ | _
          · rcases hlv : alookup ld2 "deviceState" with _ | lv
            · exact Or.inr (Or.inr ⟨rfl, rfl,
                core_offline_crash_post cfg up sd idd2 ld2 v hst h2 h3 hv hpy hlv⟩)
            · exact Or.inr (Or.inl ⟨lv, rfl, rfl,
                core_offline_ok_post cfg up sd idd2 ld2 v lv hst h2 h3 hv hpy hlv⟩)
          · exact Or.inl ⟨rfl,
              core_online_post cfg up sd idd2 ld2 v hst h2 h3 hv hpy⟩

/-- Events that only ever publish. -/
def pubsOnly (l : List Event) : Prop :=
  ∀ x ∈ l, ∃ tp p, x = Event.publish tp p

theorem pubsOnly_append (l1 l2 : List Event) (h1 : pubsOnly l1) (h2 : pubsOnly l2) :
    pubsOnly (l1 ++ l2) := by
  intro x hx
  rcases List.mem_append.mp hx with h | h
  exacts [h1 x h, h2 x h]

theorem pubsOnly_perField (t sub : String) (d : Snapshot) :
    pubsOnly (perField t sub d) :=
  fun e he => perField_pub_only t sub d e he

theorem pubsOnly_blob (t sub : String) (dl : Option (List (String × Scalar))) :
    pubsOnly (blobEvents t sub dl) :=
  fun e he => blobEvents_pub_only t sub dl e he

theorem pubsOnly_online (cfg : Config) (up : Upstream) (sd idd2 ld2 : Snapshot) :
    pubsOnly (onlineEvents cfg up sd idd2 ld2) := by
  rw [onlineEvents]
  exact pubsOnly_append _ _
    (pubsOnly_append _ _
      (pubsOnly_append _ _
        (pubsOnly_append _ _ (pubsOnly_perField _ _ _) (pubsOnly_perField _ _ _))
        (pubsOnly_blob _ _ _))
      (pubsOnly_perField _ _ _))
    (pubsOnly_blob _ _ _)

theorem count_of_pubsOnly (l : List Event) (e : Event) (hl : pubsOnly l)
    (he : ∀ tp p, e ≠ Event.publish tp p) : l.count e = 0 :=
  List.count_eq_zero.mpr (fun hm => by
    rcases hl e hm with ⟨tp, p, rfl⟩
    exact he tp p rfl)

theorem alookup_aerase_self {α : Type} (d : List (String × α)) (k : String) :
    alookup (aerase d k) k = Option.none := by
  induction d with
  | nil => rfl
  | cons p rest ih =>
    by_cases hp : p.1 = k
    · simp [aerase, hp, ih]
    · simp [aerase, alookup, hp, ih]

theorem restruct_some_eta (d : Snapshot) (device : String) :
    ∃ res d2, restruct_and_separate_current_data (some d) device = (res, some d2)
      ∧ ∀ k, k ≠ "dataList" → alookup d2 k = alookup d k := by
  obtain ⟨d2, h2, hp⟩ := restruct_snd_some d device
  refine ⟨(restruct_and_separate_current_data (some d) device).1, d2, ?_, hp⟩
  rw [← h2]

/-! Concrete fixtures for the witnesses and counterexamples. -/

/-- A fixed configuration for the concrete instances (topic `"t"`). -/
def cfgEx : Config :=
  ⟨"api.example.com", "appid", "secret", "user", "pass", Option.none,
   "station-1", "inverter-1", "logger-1", "broker.local", 1883, "mqttuser",
   "mqttpass", "t", false⟩

/-- The spec's example attribute record. -/
def exRec : AttrRec :=
  [("key", Scalar.str "k1"), ("name", Scalar.str "Output Power"),
   ("value", Scalar.int 500)]

/-- The spec's example device snapshot. -/
def exSnap : Snapshot := [("dataList", Field.dataList [exRec])]

/-- A snapshot whose `dataList` is the empty list. -/
def emptyDLSnap : Snapshot := [("dataList", Field.dataList [])]

/-- The spec's publication-filter example snapshot
`{"code": 1, "power": 0, "energy": 12.5}`. -/
def exC2Snap : Snapshot :=
  [("code", Field.scalar (Scalar.int 1)), ("power", Field.scalar (Scalar.int 0)),
   ("energy", Field.scalar (Scalar.rat twelvePointFive))]

/-! The claims. -/

/-- Claim C1: on a device snapshot whose `dataList` is a (non-empty) list of
well-formed `{key, name, value}` records, the transformer returns the mapping
sending each record's `name` — spaces replaced by underscores — to its
`value`, and deletes `dataList` from the input snapshot. -/
theorem C1_flatten (d : Snapshot) (rs : List AttrRec) (device : String)
    (hd : alookup d "dataList" = some (Field.dataList rs)) (hne : rs ≠ [])
    (hwf : ∀ r ∈ rs, recOK r = true) :
    restruct_and_separate_current_data (some d) device
      = (some (flattenSpec rs), some (aerase d "dataList")) :=
  restruct_nonempty d rs device hd hne hwf

theorem C1_flatten_witness :
    restruct_and_separate_current_data (some exSnap) "Inverter"
      = (some (flattenSpec [exRec]), some (aerase exSnap "dataList"))
    ∧ flattenSpec [exRec] = [("Output_Power", Scalar.int 500)]
    ∧ aerase exSnap "dataList" = [] :=
  ⟨C1_flatten exSnap [exRec] "Inverter" (by decide) (by decide) (by decide),
   by decide, by decide⟩

/-- Claim C2: per-field publication only ever emits truthy, non-metadata
fields, and on the snapshot `{"code": 1, "power": 0, "energy": 12.5}` only
`energy` is published. -/
theorem C2_publication_filter :
    (∀ t sub d e, e ∈ perField t sub d →
      ∃ k v, (k, v) ∈ d ∧ Field.truthy v = true ∧ discard.contains k = false
        ∧ e = Event.publish (t ++ "/" ++ sub ++ "/" ++ k) (Payload.field v))
    ∧ ∀ t, perField t "station" exC2Snap
        = [Event.publish (t ++ "/" ++ "station" ++ "/" ++ "energy")
            (Payload.field (Field.scalar (Scalar.rat twelvePointFive)))] := by
  constructor
  · intro t sub d e he
    exact (mem_perField t sub d e).mp he
  · intro t
    rfl

theorem C2_publication_filter_witness :
    ∃ k v, (k, v) ∈ exC2Snap ∧ Field.truthy v = true ∧ discard.contains k = false
      ∧ Event.publish ("t" ++ "/" ++ "station" ++ "/" ++ "energy")
          (Payload.field (Field.scalar (Scalar.rat twelvePointFive)))
        = Event.publish ("t" ++ "/" ++ "station" ++ "/" ++ k) (Payload.field v) :=
  C2_publication_filter.1 "t" "station" exC2Snap
    (Event.publish ("t" ++ "/" ++ "station" ++ "/" ++ "energy")
      (Payload.field (Field.scalar (Scalar.rat twelvePointFive))))
    (by decide)

/-- Claim C4 counterexample: on a snapshot with `dataList = []` the field is
NOT removed — `if data["dataList"]:` is falsy, so the `del` never runs and
the snapshot still contains `dataList` afterwards. -/
theorem C4_counterexample :
    (restruct_and_separate_current_data (some emptyDLSnap) "Inverter").2
        = some emptyDLSnap
    ∧ alookup emptyDLSnap "dataList" = some (Field.dataList []) := by decide

/-- Claim C4 (amended): on a snapshot whose `dataList` is a non-empty list of
well-formed records the transformer removes `dataList` in place, so the
per-field publication step cannot see it; when `dataList` is the empty list
it is left in the snapshot, but it is falsy and the per-field step publishes
nothing for it. -/
theorem C4_remove (d : Snapshot) (rs : List AttrRec) (device : String)
    (hd : alookup d "dataList" = some (Field.dataList rs)) (hne : rs ≠ [])
    (hwf : ∀ r ∈ rs, recOK r = true) :
    alookup (((restruct_and_separate_current_data (some d) device).2).getD [])
        "dataList" = Option.none
    ∧ ∀ t sub, perField t sub emptyDLSnap = [] := by
  constructor
  · rw [restruct_nonempty d rs device hd hne hwf]
    simp [alookup_aerase_self]
  · intro t sub
    simp [perField, emptyDLSnap, Field.truthy]

theorem C4_remove_witness :
    alookup (((restruct_and_separate_current_data (some exSnap) "Inverter").2).getD [])
        "dataList" = Option.none
    ∧ perField "t" "station" emptyDLSnap = [] :=
  ⟨(C4_remove exSnap [exRec] "Inverter" (by decide) (by decide) (by decide)).1,
   (C4_remove exSnap [exRec] "Inverter" (by decide) (by decide) (by decide)).2 "t" "station"⟩

/-- Claim C5: a failed token exchange or any missing fetch result aborts the
cycle: nothing is published and `run` returns without an unhandled error. -/
theorem C5_abort (cfg : Config) (up : Upstream) (cid : String)
    (h : up.token = Option.none ∨ up.station = Option.none
      ∨ up.inverter = Option.none ∨ up.logger = Option.none) :
    (run cfg up cid).publishes = [] ∧ (run cfg up cid).crashed = false := by
  rcases htok : up.token with _ | tok
  · rw [run_token_none cfg up cid htok]
    exact ⟨rfl, rfl⟩
  · have hg : guardPasses up = false := by
      rcases h with h | h | h | h
      · rw [htok] at h
        exact absurd h (by simp)
      · exact guard_fail_station up h
      · exact guard_fail_inverter up h
      · exact guard_fail_logger up h
    rw [run_token_some cfg up cid tok htok, core_guard_fail cfg up hg]
    exact ⟨rfl, rfl⟩

/-- A cycle with a failed token exchange. -/
def upC5 : Upstream := ⟨Option.none, Option.none, Option.none, Option.none⟩

theorem C5_abort_witness :
    (run cfgEx upC5 "cid").publishes = [] ∧ (run cfgEx upC5 "cid").crashed = false :=
  C5_abort cfgEx upC5 "cid" (Or.inl rfl)

/-- A cycle where all three snapshots are present, the inverter is offline
(`deviceState = 0`) and the logger snapshot has no `deviceState`. -/
def upC3cex : Upstream :=
  ⟨some "tok", some [("generationPower", Field.scalar (Scalar.int 0))],
   some [("deviceState", Field.scalar (Scalar.int 0))], some []⟩

/-- Claim C3 counterexample: all three snapshots are present and the inverter
is offline, yet only ONE message is published, not two — the logger snapshot
has no `deviceState`, so line 247 raises after the first publish. -/
theorem C3_counterexample :
    (run cfgEx upC3cex "cid").publishes
      = [("t/inverter/deviceState", Payload.field (Field.scalar (Scalar.int 0)))]
    ∧ (run cfgEx upC3cex "cid").crashed = true := by decide

/-- Claim C3 (amended): with token and all three snapshots present and the
inverter's `deviceState` readable as `v`: if `v == 1` the full set (station
per-field, inverter per-field, inverter attributes blob when non-empty,
logger per-field, logger attributes blob when non-empty — the events of
`onlineEvents`) is published and the cycle completes; if `v != 1` AND the
logger snapshot has a `deviceState`, exactly the two `deviceState` messages
are published and nothing else. -/
theorem C3_gating (cfg : Config) (up : Upstream) (cid tok : String)
    (sd idd ld : Snapshot) (v : Field)
    (ht : up.token = some tok) (hs : up.station = some sd)
    (hi : up.inverter = some idd) (hl : up.logger = some ld)
    (hv : alookup idd "deviceState" = some v) :
    (pyEqOne v = true →
      (run cfg up cid).crashed = false
      ∧ (run cfg up cid).publishes = asPubs (onlineEvents cfg up sd
          (((restruct_and_separate_current_data (some idd) "Inverter").2).getD [])
          (((restruct_and_separate_current_data (some ld) "Logger").2).getD [])))
    ∧ (∀ lv, pyEqOne v = false → alookup ld "deviceState" = some lv →
      (run cfg up cid).crashed = false
      ∧ (run cfg up cid).publishes
          = [(cfg.topic ++ "/inverter/deviceState", Payload.field v),
             (cfg.topic ++ "/logger/deviceState", Payload.field lv)]) := by
  obtain ⟨il, idd2, h1, hpI⟩ := restruct_some_eta idd "Inverter"
  obtain ⟨ll, ld2, h2, hpL⟩ := restruct_some_eta ld "Logger"
  have h2i : (restruct_and_separate_current_data up.inverter "Inverter").2 = some idd2 := by
    rw [hi, h1]
  have h2l : (restruct_and_separate_current_data up.logger "Logger").2 = some ld2 := by
    rw [hl, h2]
  have hv2 : alookup idd2 "deviceState" = some v := by
    rw [hpI _ (by decide), hv]
  constructor
  · intro hon
    have hcore := core_online_post cfg up sd idd2 ld2 v hs h2i h2l hv2 hon
    rw [run_token_some cfg up cid tok ht]
    constructor
    · rw [hcore]
    · rw [h1, h2]
      simp only [Option.getD_some]
      rw [hcore]
      simp [RunOutcome.publishes, asPubs, List.filterMap_append, pubOf]
  · intro lv hoff hlv
    have hlv2 : alookup ld2 "deviceState" = some lv := by
      rw [hpL _ (by decide), hlv]
    have hcore := core_offline_ok_post cfg up sd idd2 ld2 v lv hs h2i h2l hv2 hoff hlv2
    rw [run_token_some cfg up cid tok ht]
    constructor
    · rw [hcore]
    · rw [hcore]
      rfl

/-- A cycle with everything present and the inverter online. -/
def upC3on : Upstream :=
  ⟨some "tok", some [("generationPower", Field.scalar (Scalar.int 100))],
   some [("deviceState", Field.scalar (Scalar.int 1))],
   some [("sn", Field.scalar (Scalar.str "L1"))]⟩

theorem C3_gating_witness :
    ((run cfgEx upC3on "cid").crashed = false
      ∧ (run cfgEx upC3on "cid").publishes = asPubs (onlineEvents cfgEx upC3on
          [("generationPower", Field.scalar (Scalar.int 100))]
          (((restruct_and_separate_current_data
              (some [("deviceState", Field.scalar (Scalar.int 1))]) "Inverter").2).getD [])
          (((restruct_and_separate_current_data
              (some [("sn", Field.scalar (Scalar.str "L1"))]) "Logger").2).getD [])))
    ∧ (run cfgEx upC3on "cid").publishes
        = [("t/station/generationPower", Payload.field (Field.scalar (Scalar.int 100))),
           ("t/inverter/deviceState", Payload.field (Field.scalar (Scalar.int 1))),
           ("t/logger/sn", Payload.field (Field.scalar (Scalar.str "L1")))] :=
  ⟨(C3_gating cfgEx upC3on "cid" "tok"
      [("generationPower", Field.scalar (Scalar.int 100))]
      [("deviceState", Field.scalar (Scalar.int 1))]
      [("sn", Field.scalar (Scalar.str "L1"))]
      (Field.scalar (Scalar.int 1)) rfl rfl rfl rfl (by decide)).1 (by decide),
   by decide⟩

/-- A cycle whose logger snapshot lacks `deviceState` while the inverter is
offline. -/
def upC6cex : Upstream :=
  ⟨some "tok", some [("generationPower", Field.scalar (Scalar.int 3))],
   some [("deviceState", Field.scalar (Scalar.int 2))],
   some [("sn", Field.scalar (Scalar.str "L9"))]⟩

/-- Claim C6 counterexample: a well-formed set of upstream responses on which
`run` raises an unhandled `KeyError`: the inverter is offline and the logger
snapshot has no `deviceState` field, so `logger_data["deviceState"]`
(line 247) throws. -/
theorem C6_counterexample : (run cfgEx upC6cex "cid").crashed = true := by decide

/-- Claim C6 (amended): token, fetch and transform failures are recovered
inside the cycle, but `run` raises an unhandled exception exactly when the
cycle reaches publication with an offline inverter and a logger snapshot
that lacks `deviceState`. -/
theorem C6_crash_iff (cfg : Config) (up : Upstream) (cid : String) :
    (run cfg up cid).crashed = true ↔
      ∃ tok sd idd ld v, up.token = some tok ∧ up.station = some sd
        ∧ up.inverter = some idd ∧ up.logger = some ld
        ∧ alookup idd "deviceState" = some v ∧ pyEqOne v = false
        ∧ alookup ld "deviceState" = Option.none := by
  constructor
  · intro hcr
    rcases htok : up.token with _ | tok
    · rw [run_token_none cfg up cid htok] at hcr
      simp at hcr
    · rw [run_token_some cfg up cid tok htok] at hcr
      rcases run_cases cfg up with ⟨hg, hcore⟩ |
        ⟨sd, idd2, ld2, v, hg, hst, h2, h3, hv, hbr⟩
      · rw [hcore] at hcr
        simp at hcr
      · rcases hbr with ⟨hpy, hcore⟩ | ⟨lv, hpy, hlv, hcore⟩ | ⟨hpy, hlv, hcore⟩
        · rw [hcore] at hcr
          simp at hcr
        · rw [hcore] at hcr
          simp at hcr
        · rcases hi : up.inverter with _ | idd
          · rw [hi, restruct_arg_none] at h2
            simp at h2
          · rcases hl : up.logger with _ | ld
            · rw [hl, restruct_arg_none] at h3
              simp at h3
            · rw [hi] at h2
              rw [hl] at h3
              obtain ⟨il, idd2x, h1x, hpI⟩ := restruct_some_eta idd "Inverter"
              have hIeq : idd2x = idd2 := by
                rw [h1x] at h2
                exact Option.some.inj h2
              subst hIeq
              obtain ⟨ll, ld2x, h2x, hpL⟩ := restruct_some_eta ld "Logger"
              have hLeq : ld2x = ld2 := by
                rw [h2x] at h3
                exact Option.some.inj h3
              subst hLeq
              exact ⟨tok, sd, idd, ld, v, rfl, hst, rfl, rfl,
                by rw [← hpI _ (by decide)]; exact hv,
                hpy,
                by rw [← hpL _ (by decide)]; exact hlv⟩
  · rintro ⟨tok, sd, idd, ld, v, ht, hs, hi, hl, hv, hoff, hlv⟩
    obtain ⟨il, idd2, h1, hpI⟩ := restruct_some_eta idd "Inverter"
    obtain ⟨ll, ld2, h2, hpL⟩ := restruct_some_eta ld "Logger"
    have h2i : (restruct_and_separate_current_data up.inverter "Inverter").2
        = some idd2 := by rw [hi, h1]
    have h2l : (restruct_and_separate_current_data up.logger "Logger").2
        = some ld2 := by rw [hl, h2]
    have hv2 : alookup idd2 "deviceState" = some v := by
      rw [hpI _ (by decide), hv]
    have hlv2 : alookup ld2 "deviceState" = Option.none := by
      rw [hpL _ (by decide), hlv]
    rw [run_token_some cfg up cid tok ht,
      core_offline_crash_post cfg up sd idd2 ld2 v hs h2i h2l hv2 hoff hlv2]

/-- Claim C7: for EVERY snapshot whose `dataList` is missing the transformer
returns `None`, and for every snapshot whose `dataList` is the empty list it
returns the empty mapping — in both cases without raising past the transform
boundary and leaving the snapshot unchanged, whatever the device label; and
in a cycle that reaches publication, a degraded device degrades alone: if the
inverter's `dataList` is empty/missing its attributes blob is skipped while
station per-field, inverter per-field and the whole logger side (per-field
and its blob as computed) still proceed, and symmetrically for the logger. -/
theorem C7_degrade (cfg : Config) (up : Upstream) (cid tok : String)
    (sd idd ld : Snapshot) (v : Field)
    (ht : up.token = some tok) (hs : up.station = some sd)
    (hi : up.inverter = some idd) (hl : up.logger = some ld)
    (hv : alookup idd "deviceState" = some v) (hon : pyEqOne v = true) :
    (∀ d device,
      (alookup d "dataList" = Option.none →
        restruct_and_separate_current_data (some d) device = (Option.none, some d))
      ∧ (alookup d "dataList" = some (Field.dataList []) →
        restruct_and_separate_current_data (some d) device = (some [], some d)))
    ∧ (alookup idd "dataList" = Option.none
        ∨ alookup idd "dataList" = some (Field.dataList []) →
      (run cfg up cid).crashed = false
      ∧ (run cfg up cid).publishes
          = asPubs (perField cfg.topic "station" sd)
            ++ asPubs (perField cfg.topic "inverter" idd)
            ++ asPubs (perField cfg.topic "logger"
                (((restruct_and_separate_current_data (some ld) "Logger").2).getD []))
            ++ asPubs (blobEvents cfg.topic "logger"
                (restruct_and_separate_current_data (some ld) "Logger").1))
    ∧ (alookup ld "dataList" = Option.none
        ∨ alookup ld "dataList" = some (Field.dataList []) →
      (run cfg up cid).crashed = false
      ∧ (run cfg up cid).publishes
          = asPubs (perField cfg.topic "station" sd)
            ++ asPubs (perField cfg.topic "inverter"
                (((restruct_and_separate_current_data (some idd) "Inverter").2).getD []))
            ++ asPubs (blobEvents cfg.topic "inverter"
                (restruct_and_separate_current_data (some idd) "Inverter").1)
            ++ asPubs (perField cfg.topic "logger" ld)) := by
  refine ⟨?_, ?_, ?_⟩
  · intro d device
    exact ⟨fun h => restruct_missing d device h, fun h => restruct_empty d device h⟩
  · intro hidl
    have h2i : (restruct_and_separate_current_data up.inverter "Inverter").2
        = some idd := by
      rw [hi]
      rcases hidl with h | h
      · rw [restruct_missing idd "Inverter" h]
      · rw [restruct_empty idd "Inverter" h]
    have hblobI : blobEvents cfg.topic "inverter"
        (restruct_and_separate_current_data up.inverter "Inverter").1 = [] := by
      rw [hi]
      rcases hidl with h | h
      · rw [restruct_missing idd "Inverter" h]
        rfl
      · rw [restruct_empty idd "Inverter" h]
        rfl
    obtain ⟨ll, ld2, h2, hpL⟩ := restruct_some_eta ld "Logger"
    have h2l : (restruct_and_separate_current_data up.logger "Logger").2
        = some ld2 := by
      rw [hl, h2]
    have hcore := core_online_post cfg up sd idd ld2 v hs h2i h2l hv hon
    rw [run_token_some cfg up cid tok ht]
    constructor
    · rw [hcore]
    · simp [RunOutcome.publishes, asPubs, hcore, onlineEvents, hblobI, hl, h2,
        List.filterMap_append, pubOf]
  · intro hldl
    have h2l : (restruct_and_separate_current_data up.logger "Logger").2
        = some ld := by
      rw [hl]
      rcases hldl with h | h
      · rw [restruct_missing ld "Logger" h]
      · rw [restruct_empty ld "Logger" h]
    have hblobL : blobEvents cfg.topic "logger"
        (restruct_and_separate_current_data up.logger "Logger").1 = [] := by
      rw [hl]
      rcases hldl with h | h
      · rw [restruct_missing ld "Logger" h]
        rfl
      · rw [restruct_empty ld "Logger" h]
        rfl
    obtain ⟨il, idd2, h1, hpI⟩ := restruct_some_eta idd "Inverter"
    have h2i : (restruct_and_separate_current_data up.inverter "Inverter").2
        = some idd2 := by
      rw [hi, h1]
    have hv2 : alookup idd2 "deviceState" = some v := by
      rw [hpI _ (by decide), hv]
    have hcore := core_online_post cfg up sd idd2 ld v hs h2i h2l hv2 hon
    rw [run_token_some cfg up cid tok ht]
    constructor
    · rw [hcore]
    · simp [RunOutcome.publishes, asPubs, hcore, onlineEvents, hblobL, hi, h1,
        List.filterMap_append, pubOf]

/-- The station snapshot of the C7 instance. -/
def staSnapC7 : Snapshot := [("generationPower", Field.scalar (Scalar.int 7))]

/-- An online inverter snapshot with an EMPTY `dataList` (degraded). -/
def invSnapC7 : Snapshot :=
  [("deviceState", Field.scalar (Scalar.int 1)), ("dataList", Field.dataList [])]

/-- A healthy logger snapshot with a non-empty, well-formed `dataList`. -/
def logSnapC7 : Snapshot :=
  [("sn", Field.scalar (Scalar.str "L7")),
   ("dataList", Field.dataList
     [[("key", Scalar.str "k2"), ("name", Scalar.str "Logger Temp"),
       ("value", Scalar.int 40)]])]

/-- A cycle where only the inverter is degraded: its `dataList` is empty
while the logger's is healthy and non-empty. -/
def upC7 : Upstream := ⟨some "tok", some staSnapC7, some invSnapC7, some logSnapC7⟩

theorem C7_degrade_witness :
    restruct_and_separate_current_data (some invSnapC7) "Inverter"
        = (some [], some invSnapC7)
    ∧ ((run cfgEx upC7 "cid").crashed = false
      ∧ (run cfgEx upC7 "cid").publishes
          = asPubs (perField cfgEx.topic "station" staSnapC7)
            ++ asPubs (perField cfgEx.topic "inverter" invSnapC7)
            ++ asPubs (perField cfgEx.topic "logger"
                (((restruct_and_separate_current_data (some logSnapC7) "Logger").2).getD []))
            ++ asPubs (blobEvents cfgEx.topic "logger"
                (restruct_and_separate_current_data (some logSnapC7) "Logger").1))
    ∧ (run cfgEx upC7 "cid").publishes
        = [("t/station/generationPower", Payload.field (Field.scalar (Scalar.int 7))),
           ("t/inverter/deviceState", Payload.field (Field.scalar (Scalar.int 1))),
           ("t/logger/sn", Payload.field (Field.scalar (Scalar.str "L7"))),
           ("t/logger/attributes", Payload.json [("Logger_Temp", Scalar.int 40)])] :=
  ⟨((C7_degrade cfgEx upC7 "cid" "tok" staSnapC7 invSnapC7 logSnapC7
      (Field.scalar (Scalar.int 1)) rfl rfl rfl rfl (by decide) (by decide)).1
        invSnapC7 "Inverter").2 (by decide),
   (C7_degrade cfgEx upC7 "cid" "tok" staSnapC7 invSnapC7 logSnapC7
      (Field.scalar (Scalar.int 1)) rfl rfl rfl rfl (by decide) (by decide)).2.1
        (Or.inr (by decide)),
   by decide⟩

/-- A cycle whose station fetch failed while the token was obtained. -/
def upC8cex : Upstream :=
  ⟨some "tok", Option.none, some [("deviceState", Field.scalar (Scalar.int 1))],
   some [("sn", Field.scalar (Scalar.str "L2"))]⟩

/-- Claim C8 counterexample: the station fetch failed, but the connection is
opened (line 208) before the guard (line 213) returns: the cycle ends having
connected and started the network loop without ever stopping it. -/
theorem C8_counterexample :
    (run cfgEx upC8cex "cid").events = [Event.connect "cid", Event.loopStart]
    ∧ Event.loopStop ∉ (run cfgEx upC8cex "cid").events := by decide

/-- Claim C8 (amended): past the token check the connection is opened exactly
once per cycle, and the network loop is stopped exactly once in cycles that
pass the data guard and do not crash — but zero times in cycles that abort at
the guard or crash, which leave the loop running. -/
theorem C8_lifecycle (cfg : Config) (up : Upstream) (cid tok : String)
    (ht : up.token = some tok) :
    (run cfg up cid).events.count (Event.connect cid) = 1
    ∧ (run cfg up cid).events.count Event.loopStop
        = (if guardPasses up && !(run cfg up cid).crashed then 1 else 0) := by
  rw [run_token_some cfg up cid tok ht]
  rcases run_cases cfg up with ⟨hg, hcore⟩ |
    ⟨sd, idd2, ld2, v, hg, hst, h2, h3, hv, hbr⟩
  · rw [hcore, hg]
    constructor <;> simp [List.count_cons]
  · rcases hbr with ⟨hpy, hcore⟩ | ⟨lv, hpy, hlv, hcore⟩ | ⟨hpy, hlv, hcore⟩
    · rw [hcore, hg]
      have hponline := pubsOnly_online cfg up sd idd2 ld2
      have hc0 : (onlineEvents cfg up sd idd2 ld2).count (Event.connect cid) = 0 :=
        count_of_pubsOnly _ _ hponline (fun tp p h => Event.noConfusion h)
      have hs0 : (onlineEvents cfg up sd idd2 ld2).count Event.loopStop = 0 :=
        count_of_pubsOnly _ _ hponline (fun tp p h => Event.noConfusion h)
      constructor
      · simp [List.count_cons, List.count_append, hc0]
      · simp [List.count_cons, List.count_append, hs0]
    · rw [hcore, hg]
      constructor <;> simp [List.count_cons]
    · rw [hcore, hg]
      constructor <;> simp [List.count_cons]

theorem C8_lifecycle_witness :
    (run cfgEx upC8cex "cid").events.count (Event.connect "cid") = 1
    ∧ (run cfgEx upC8cex "cid").events.count Event.loopStop
        = (if guardPasses upC8cex && !(run cfgEx upC8cex "cid").crashed
            then 1 else 0) :=
  C8_lifecycle cfgEx upC8cex "cid" "tok" rfl

/-- Claim C9: the published topic/value pairs and the crash behaviour of a
cycle do not depend on the randomly generated client id; with fixed upstream
responses two runs publish the identical list of pairs. -/
theorem C9_client_id (cfg : Config) (up : Upstream) (cid1 cid2 : String) :
    (run cfg up cid1).publishes = (run cfg up cid2).publishes
    ∧ (run cfg up cid1).crashed = (run cfg up cid2).crashed := by
  rcases htok : up.token with _ | tok
  · rw [run_token_none cfg up cid1 htok, run_token_none cfg up cid2 htok]
    exact ⟨rfl, rfl⟩
  · rw [run_token_some cfg up cid1 tok htok, run_token_some cfg up cid2 tok htok]
    exact ⟨rfl, rfl⟩

/-- Claim C10: a `None` snapshot argument (failed fetch) makes the
transformer return `None` without raising, whatever the device label. -/
theorem C10_none_input (device : String) :
    restruct_and_separate_current_data Option.none device
      = (Option.none, Option.none) := rfl

end Solarman
